import Mathlib

/-
Verification of the listing query controller in `src/pages/Home.tsx`
(real-estate search page): the filter-to-query translation performed by
`fetchPlots`, its loading/error state discipline, and the grid/map view
toggle. The remote store (Supabase) is modelled as an oracle
`Query → FetchOutcome`; the component state is the four `useState` cells of
the `Home` component.
-/

namespace RealEstate

/-- Modelled from the spec: the Listing (Plot) record declared in `../types`,
which is not under `src/`. Attributes per the data model: identifier, title,
description, price, area in square meters, usage type, status, creation
timestamp, and a reference to the owning council. The joined council,
district and region metadata is read-only display enrichment and is not
needed by any claim, so it is elided here. -/
structure Plot where
  id : String
  title : String
  description : String
  price : Int
  area_sqm : Int
  usage_type : String
  status : String
  created_at : Int
  council_id : String
  deriving DecidableEq, Repr

/-- Modelled from the spec: the FilterCriteria record produced by the filter
panel (`SearchFilters.tsx`, not under `src/`). The seven fields are exactly
the ones `fetchPlots` reads: free-text search, price bounds, area bounds,
council identifier and usage type. -/
structure SearchFilters where
  search : String
  minPrice : Int
  maxPrice : Int
  minArea : Int
  maxArea : Int
  councilId : String
  usageType : String
  deriving DecidableEq, Repr

/-- One predicate of the query-builder chain in `fetchPlots`:
`eqStr` is `.eq(column, value)` on a string column, `gte`/`lte` are
`.gte(column, value)`/`.lte(column, value)` on a numeric column, and
`orIlike s` is the `.or(...)` clause combining a case-insensitive partial
match of `s` against `title` with one against `description`
(line 45 of `Home.tsx`). -/
inductive Pred where
  | eqStr (column value : String)
  | gte (column : String) (value : Int)
  | lte (column : String) (value : Int)
  | orIlike (search : String)
  deriving DecidableEq, Repr

/-- The `.order(column, ascending)` clause. -/
structure OrderSpec where
  column : String
  ascending : Bool
  deriving DecidableEq, Repr

/-- The query `fetchPlots` sends to the remote store: the predicate chain in
the order the builder accumulates it, plus the ordering clause. -/
structure Query where
  preds : List Pred
  order : Option OrderSpec
  deriving DecidableEq, Repr

/-- The `// Apply filters` block of `fetchPlots` (lines 43-65 of `Home.tsx`):
each truthiness / comparison guard appends one predicate to the builder
chain. JavaScript string truthiness (`if (filters.search)`) is non-emptiness. -/
def applyFilters (query : List Pred) (filters : SearchFilters) : List Pred :=
  let query := if filters.search ≠ "" then query ++ [Pred.orIlike filters.search] else query
  let query := if filters.minPrice > 0 then query ++ [Pred.gte "price" filters.minPrice] else query
  let query := if filters.maxPrice < 10000000 then query ++ [Pred.lte "price" filters.maxPrice] else query
  let query := if filters.minArea > 0 then query ++ [Pred.gte "area_sqm" filters.minArea] else query
  let query := if filters.maxArea < 10000 then query ++ [Pred.lte "area_sqm" filters.maxArea] else query
  let query := if filters.councilId ≠ "" then query ++ [Pred.eqStr "council_id" filters.councilId] else query
  let query := if filters.usageType ≠ "" then query ++ [Pred.eqStr "usage_type" filters.usageType] else query
  query

/-- The full query built by `fetchPlots` (lines 23-67 of `Home.tsx`): the base
builder carries `.eq('status', 'available')`; if a filters argument is
present the filter block runs; finally `.order('created_at',
ascending := false)` is applied to whatever chain was built. -/
def buildQuery (filters : Option SearchFilters) : Query :=
  let base : List Pred := [Pred.eqStr "status" "available"]
  let preds := match filters with
    | none => base
    | some f => applyFilters base f
  { preds := preds, order := some { column := "created_at", ascending := false } }

/-- How the awaited remote call resolves, as destructured on line 67 of
`Home.tsx`: either `{ data, error: null }` where `data` may itself be null
(hence `Option (List Plot)`), or `{ data: null, error }`, or the promise
rejects and the `catch` block runs. -/
inductive FetchOutcome where
  | success (data : Option (List Plot))
  | storeError (message : String)
  | thrown (message : String)
  deriving DecidableEq, Repr

/-- The two rendering paths of the view toggle. -/
inductive ViewMode where
  | grid
  | map
  deriving DecidableEq, Repr

/-- The four `useState` cells of the `Home` component (lines 11-14 of
`Home.tsx`). -/
structure HomeState where
  plots : List Plot
  loading : Bool
  viewMode : ViewMode
  selectedPlot : Option Plot
  deriving DecidableEq, Repr

/-- The initial component state: empty plots, `loading = true`, grid view,
no selection (lines 11-14 of `Home.tsx`). -/
def initialState : HomeState :=
  { plots := [], loading := true, viewMode := ViewMode.grid, selectedPlot := none }

/-- `setLoading(true)` on line 22, executed before the request is issued. -/
def beginFetch (s : HomeState) : HomeState :=
  { s with loading := true }

/-- Lines 69-79 of `Home.tsx`: how `fetchPlots` finishes once the awaited
call resolves. On a store-reported error it logs and returns early; on a
thrown exception the `catch` logs; on success it runs `setPlots(data || [])`;
in every case the `finally` block runs `setLoading(false)`. -/
def completeFetch (s : HomeState) (outcome : FetchOutcome) : HomeState :=
  match outcome with
  | FetchOutcome.success data => { s with plots := data.getD [], loading := false }
  | FetchOutcome.storeError _ => { s with loading := false }
  | FetchOutcome.thrown _ => { s with loading := false }

/-- The `console.error` output of one `fetchPlots` run: both the early-return
error branch (line 70) and the `catch` branch (line 76) log the failure;
the success path logs nothing. -/
def fetchLog (outcome : FetchOutcome) : List String :=
  match outcome with
  | FetchOutcome.success _ => []
  | FetchOutcome.storeError m => ["Error fetching plots: " ++ m]
  | FetchOutcome.thrown m => ["Error fetching plots: " ++ m]

/-- One `fetchPlots` call as a state transition, with the resolution of the
awaited remote call supplied explicitly. The filters argument shapes only
the query sent (see `buildQuery`), never the state transition itself. -/
def fetchPlots (s : HomeState) (_filters : Option SearchFilters) (outcome : FetchOutcome) : HomeState :=
  completeFetch (beginFetch s) outcome

/-- One `fetchPlots` call run against a store oracle: the query built from
the filters is issued from the `beginFetch` state and the outcome the store
gives for it is applied. -/
def fetchPlotsRun (store : Query → FetchOutcome) (s : HomeState) (filters : Option SearchFilters) : HomeState :=
  completeFetch (beginFetch s) (store (buildQuery filters))

/-- The `setViewMode` state setter (line 13 of `Home.tsx`): writes the
`viewMode` cell and nothing else. -/
def setViewMode (s : HomeState) (m : ViewMode) : HomeState :=
  { s with viewMode := m }

/-- `handlePlotClick` / the selection part of `handleViewDetails`
(lines 86-94 of `Home.tsx`): records the selected plot. -/
def selectPlot (s : HomeState) (p : Plot) : HomeState :=
  { s with selectedPlot := some p }

/-- The user-triggerable operations of the controller. -/
inductive Action where
  | loadListings (filters : Option SearchFilters)
  | setView (m : ViewMode)
  | select (p : Plot)

/-- One controller step: the successor state together with the list of
queries issued to the remote store by that step. Only `loadListings`
contacts the store; the view toggle and selection issue no request. -/
def step (store : Query → FetchOutcome) (s : HomeState) : Action → HomeState × List Query
  | Action.loadListings f => (fetchPlotsRun store s f, [buildQuery f])
  | Action.setView m => (setViewMode s m, [])
  | Action.select p => (selectPlot s p, [])

/-- Membership in one conditional-append stage of the builder chain. -/
lemma mem_ite_append (a p : Pred) (q : List Pred) (c : Prop) [Decidable c] :
    (a ∈ (if c then q ++ [p] else q)) ↔ a ∈ q ∨ (c ∧ a = p) := by
  split_ifs with h <;> simp [h]

/-- Membership across the whole filter block: a predicate is in the chain
exactly when it was already in the incoming chain or one of the seven guards
fired and appended exactly it. -/
lemma mem_applyFilters (a : Pred) (q : List Pred) (f : SearchFilters) :
    a ∈ applyFilters q f ↔ a ∈ q
      ∨ (f.search ≠ "" ∧ a = Pred.orIlike f.search)
      ∨ (0 < f.minPrice ∧ a = Pred.gte "price" f.minPrice)
      ∨ (f.maxPrice < 10000000 ∧ a = Pred.lte "price" f.maxPrice)
      ∨ (0 < f.minArea ∧ a = Pred.gte "area_sqm" f.minArea)
      ∨ (f.maxArea < 10000 ∧ a = Pred.lte "area_sqm" f.maxArea)
      ∨ (f.councilId ≠ "" ∧ a = Pred.eqStr "council_id" f.councilId)
      ∨ (f.usageType ≠ "" ∧ a = Pred.eqStr "usage_type" f.usageType) := by
  simp only [applyFilters, mem_ite_append, gt_iff_lt, or_assoc]

/-- Membership in the full query built for a present filters argument. -/
lemma mem_buildQuery_some (a : Pred) (f : SearchFilters) :
    a ∈ (buildQuery (some f)).preds ↔ a = Pred.eqStr "status" "available"
      ∨ (f.search ≠ "" ∧ a = Pred.orIlike f.search)
      ∨ (0 < f.minPrice ∧ a = Pred.gte "price" f.minPrice)
      ∨ (f.maxPrice < 10000000 ∧ a = Pred.lte "price" f.maxPrice)
      ∨ (0 < f.minArea ∧ a = Pred.gte "area_sqm" f.minArea)
      ∨ (f.maxArea < 10000 ∧ a = Pred.lte "area_sqm" f.maxArea)
      ∨ (f.councilId ≠ "" ∧ a = Pred.eqStr "council_id" f.councilId)
      ∨ (f.usageType ≠ "" ∧ a = Pred.eqStr "usage_type" f.usageType) := by
  simp only [buildQuery, mem_applyFilters, List.mem_singleton]

/-- A `price >= v` predicate occurs in the built query exactly when the
minimum-price guard fired and `v` is that minimum. -/
lemma mem_preds_gte_price (f : SearchFilters) (v : Int) :
    Pred.gte "price" v ∈ (buildQuery (some f)).preds ↔ 0 < f.minPrice ∧ v = f.minPrice := by
  simp [mem_buildQuery_some]

/-- A `price <= v` predicate occurs in the built query exactly when the
maximum-price guard fired and `v` is that maximum. -/
lemma mem_preds_lte_price (f : SearchFilters) (v : Int) :
    Pred.lte "price" v ∈ (buildQuery (some f)).preds ↔ f.maxPrice < 10000000 ∧ v = f.maxPrice := by
  simp [mem_buildQuery_some]

/-- An `area_sqm >= v` predicate occurs in the built query exactly when the
minimum-area guard fired and `v` is that minimum. -/
lemma mem_preds_gte_area (f : SearchFilters) (v : Int) :
    Pred.gte "area_sqm" v ∈ (buildQuery (some f)).preds ↔ 0 < f.minArea ∧ v = f.minArea := by
  simp [mem_buildQuery_some]

/-- An `area_sqm <= v` predicate occurs in the built query exactly when the
maximum-area guard fired and `v` is that maximum. -/
lemma mem_preds_lte_area (f : SearchFilters) (v : Int) :
    Pred.lte "area_sqm" v ∈ (buildQuery (some f)).preds ↔ f.maxArea < 10000 ∧ v = f.maxArea := by
  simp [mem_buildQuery_some]

/-- A text-search predicate occurs in the built query exactly when the search
string is non-empty and the predicate carries that string. -/
lemma mem_preds_orIlike (f : SearchFilters) (s : String) :
    Pred.orIlike s ∈ (buildQuery (some f)).preds ↔ f.search ≠ "" ∧ s = f.search := by
  simp [mem_buildQuery_some]

/-- The fully-defaulted FilterCriteria: every field at its sentinel value. -/
def defaultFilters : SearchFilters :=
  { search := "", minPrice := 0, maxPrice := 10000000, minArea := 0,
    maxArea := 10000, councilId := "", usageType := "" }

/-- A FilterCriteria with every numeric bound strictly on the unconstrained
side of its sentinel. -/
def outOfRangeFilters : SearchFilters :=
  { search := "", minPrice := -5, maxPrice := 20000000, minArea := -3,
    maxArea := 20000, councilId := "", usageType := "" }

/-- A controller state currently rendering the map view. -/
def mapModeState : HomeState :=
  { plots := [], loading := false, viewMode := ViewMode.map, selectedPlot := none }

/-- Claim C1: when the remote store reports an error — and likewise when the
awaited call throws — `fetchPlots` leaves the `plots` (listings) state exactly
at its prior value, ends with `loading = false`, and the failure is only
logged; no exception propagates to the caller (the transition is a total
function on states). -/
theorem fetchPlots_error_path (s : HomeState) (filters : Option SearchFilters) (m : String) :
    fetchPlots s filters (FetchOutcome.storeError m) = { s with loading := false }
      ∧ fetchPlots s filters (FetchOutcome.thrown m) = { s with loading := false }
      ∧ fetchLog (FetchOutcome.storeError m) = ["Error fetching plots: " ++ m] :=
  ⟨rfl, rfl, rfl⟩

/-- Claim C2: every `fetchPlots` call sets `loading = true` before the request
is issued — `fetchPlotsRun` applies the store oracle to the `beginFetch`
state — and every completion path (success, store-reported error, thrown
exception) ends with `loading = false`. -/
theorem fetchPlots_loading_discipline (store : Query → FetchOutcome) (s : HomeState)
    (filters : Option SearchFilters) (outcome : FetchOutcome) :
    (beginFetch s).loading = true
      ∧ (fetchPlots s filters outcome).loading = false
      ∧ fetchPlotsRun store s filters = completeFetch (beginFetch s) (store (buildQuery filters)) := by
  refine ⟨rfl, ?_, rfl⟩
  cases outcome <;> rfl

/-- Claim C3: the built query contains the price-upper-bound predicate exactly
when `maxPrice < 10000000`, and the area-upper-bound predicate exactly when
`maxArea < 10000`; in particular `maxPrice = 10000000` generates no price
ceiling while `maxPrice = 9999999` does. -/
theorem buildQuery_upper_bound_sentinels (f : SearchFilters) :
    (Pred.lte "price" f.maxPrice ∈ (buildQuery (some f)).preds ↔ f.maxPrice < 10000000)
      ∧ (Pred.lte "area_sqm" f.maxArea ∈ (buildQuery (some f)).preds ↔ f.maxArea < 10000) := by
  constructor
  · simp [mem_preds_lte_price]
  · simp [mem_preds_lte_area]

/-- Claim C4: the built query contains the price-lower-bound predicate exactly
when `minPrice > 0`, and the area-lower-bound predicate exactly when
`minArea > 0`; in particular `minPrice = 0` generates no price floor. -/
theorem buildQuery_lower_bound_sentinels (f : SearchFilters) :
    (Pred.gte "price" f.minPrice ∈ (buildQuery (some f)).preds ↔ 0 < f.minPrice)
      ∧ (Pred.gte "area_sqm" f.minArea ∈ (buildQuery (some f)).preds ↔ 0 < f.minArea) := by
  constructor
  · simp [mem_preds_gte_price]
  · simp [mem_preds_gte_area]

/-- Claim C5: a text-search predicate (case-insensitive partial match of the
search string against title OR description) is in the built query exactly
when the search string is non-empty and it carries exactly that string; for
an empty search string no text-match predicate of any string is present. -/
theorem buildQuery_text_search (f : SearchFilters) (s : String) :
    Pred.orIlike s ∈ (buildQuery (some f)).preds ↔ f.search ≠ "" ∧ s = f.search :=
  mem_preds_orIlike f s

/-- Claim C6: with every filter field at its sentinel default — and likewise
with the filters argument absent — the built query consists of exactly the
one predicate `status = available`, ordered descending by `created_at`. -/
theorem buildQuery_default_filters :
    buildQuery (some defaultFilters)
        = { preds := [Pred.eqStr "status" "available"],
            order := some { column := "created_at", ascending := false } }
      ∧ buildQuery none
        = { preds := [Pred.eqStr "status" "available"],
            order := some { column := "created_at", ascending := false } } :=
  ⟨by decide, rfl⟩

/-- Claim C7: on success `fetchPlots` replaces `plots` with the returned
sequence (`data.getD []`: the empty list when the store returns null data),
ends with `loading = false`, and logs nothing; in particular an empty or
absent result yields `plots = []` without being treated as an error. -/
theorem fetchPlots_success_replaces (s : HomeState) (filters : Option SearchFilters)
    (data : Option (List Plot)) :
    fetchPlots s filters (FetchOutcome.success data)
        = { s with plots := data.getD [], loading := false }
      ∧ fetchPlots s filters (FetchOutcome.success (some []))
        = { s with plots := [], loading := false }
      ∧ fetchPlots s filters (FetchOutcome.success none)
        = { s with plots := [], loading := false }
      ∧ fetchLog (FetchOutcome.success data) = [] :=
  ⟨rfl, rfl, rfl, rfl⟩

/-- Claim C8: `fetchPlots` is idempotent against a fixed store: running the
same filters twice against a store that answers each query identically ends
in exactly the state (in particular the `plots` sequence) a single run
produces — the second run fully replaces, never merges. -/
theorem fetchPlotsRun_idempotent (store : Query → FetchOutcome) (s : HomeState)
    (filters : Option SearchFilters) :
    fetchPlotsRun store (fetchPlotsRun store s filters) filters
      = fetchPlotsRun store s filters := by
  unfold fetchPlotsRun
  cases store (buildQuery filters) <;> rfl

/-- Claim C9 counterexample: from a controller state already in map view, the
sequence `setViewMode('map')` then `setViewMode('grid')` does NOT restore the
original rendering path — it ends in grid view while the original state
rendered the map — so the claim's universally quantified restoration
property is false as stated. -/
theorem setViewMode_roundtrip_not_restoring :
    ¬ ((setViewMode (setViewMode mapModeState ViewMode.map) ViewMode.grid).viewMode
          = mapModeState.viewMode
        ∧ (setViewMode (setViewMode mapModeState ViewMode.map) ViewMode.grid).plots
          = mapModeState.plots
        ∧ (setViewMode (setViewMode mapModeState ViewMode.map) ViewMode.grid).loading
          = mapModeState.loading
        ∧ (setViewMode (setViewMode mapModeState ViewMode.map) ViewMode.grid).selectedPlot
          = mapModeState.selectedPlot) := by
  decide

/-- Claim C9 (amended): from any controller state currently in grid view,
`setViewMode('map')` followed by `setViewMode('grid')` restores the original
state exactly — rendering path, listings, loading flag and selection all
unchanged — and neither step issues any query to the remote store. -/
theorem setViewMode_roundtrip_from_grid (store : Query → FetchOutcome) (s : HomeState)
    (h : s.viewMode = ViewMode.grid) :
    (step store (step store s (Action.setView ViewMode.map)).1 (Action.setView ViewMode.grid)).1 = s
      ∧ (step store s (Action.setView ViewMode.map)).2 = []
      ∧ (step store (step store s (Action.setView ViewMode.map)).1 (Action.setView ViewMode.grid)).2
        = [] := by
  refine ⟨?_, rfl, rfl⟩
  cases s with
  | mk plots loading vm sel =>
    change vm = ViewMode.grid at h
    subst h
    rfl

/-- Concrete run of the amended C9 round-trip from the initial (grid) state. -/
theorem setViewMode_roundtrip_from_grid_witness :
    (step (fun _ => FetchOutcome.success none)
        (step (fun _ => FetchOutcome.success none) initialState (Action.setView ViewMode.map)).1
        (Action.setView ViewMode.grid)).1 = initialState
      ∧ (step (fun _ => FetchOutcome.success none) initialState (Action.setView ViewMode.map)).2 = []
      ∧ (step (fun _ => FetchOutcome.success none)
          (step (fun _ => FetchOutcome.success none) initialState (Action.setView ViewMode.map)).1
          (Action.setView ViewMode.grid)).2 = [] :=
  setViewMode_roundtrip_from_grid (fun _ => FetchOutcome.success none) initialState rfl

/-- Claim C10: any bound strictly on the unconstrained side of its sentinel
(`minPrice < 0`, `minArea < 0`, `maxPrice > 10000000`, `maxArea > 10000`) has
its corresponding bound predicate omitted from the built query, exactly as
the sentinel value itself does. -/
theorem buildQuery_out_of_range_bounds (f : SearchFilters) :
    (f.minPrice < 0 → Pred.gte "price" f.minPrice ∉ (buildQuery (some f)).preds)
      ∧ (f.minArea < 0 → Pred.gte "area_sqm" f.minArea ∉ (buildQuery (some f)).preds)
      ∧ (f.maxPrice > 10000000 → Pred.lte "price" f.maxPrice ∉ (buildQuery (some f)).preds)
      ∧ (f.maxArea > 10000 → Pred.lte "area_sqm" f.maxArea ∉ (buildQuery (some f)).preds) := by
  refine ⟨?_, ?_, ?_, ?_⟩ <;> intro h hmem
  · exact absurd ((mem_preds_gte_price f f.minPrice).1 hmem).1 (by omega)
  · exact absurd ((mem_preds_gte_area f f.minArea).1 hmem).1 (by omega)
  · exact absurd ((mem_preds_lte_price f f.maxPrice).1 hmem).1 (by omega)
  · exact absurd ((mem_preds_lte_area f f.maxArea).1 hmem).1 (by omega)

/-- Concrete run of C10 on filters with every bound out of range. -/
theorem buildQuery_out_of_range_bounds_witness :
    Pred.gte "price" (-5) ∉ (buildQuery (some outOfRangeFilters)).preds
      ∧ Pred.gte "area_sqm" (-3) ∉ (buildQuery (some outOfRangeFilters)).preds
      ∧ Pred.lte "price" 20000000 ∉ (buildQuery (some outOfRangeFilters)).preds
      ∧ Pred.lte "area_sqm" 20000 ∉ (buildQuery (some outOfRangeFilters)).preds :=
  ⟨(buildQuery_out_of_range_bounds outOfRangeFilters).1 (by decide),
   (buildQuery_out_of_range_bounds outOfRangeFilters).2.1 (by decide),
   (buildQuery_out_of_range_bounds outOfRangeFilters).2.2.1 (by decide),
   (buildQuery_out_of_range_bounds outOfRangeFilters).2.2.2 (by decide)⟩

end RealEstate
